import Mathlib

/-!
Shallow embedding of the STM32G0 comparator driver (src/comparator.rs) and
verification of its configuration, input-selection and window-composition
behaviour.

The hardware is modelled field-wise: each comparator control/status register
(COMPx_CSR) is a record of its named bit fields, and a machine state holds the
two CSRs together with the two RCC bits the driver touches (SYSCFGEN in
APBENR2 and SYSCFGRST in APBRSTR2).  A read-modify-write of a register
(`csr().modify(...)` in the source) becomes a record update that changes
exactly the fields named in the closure.  Operations that the claims constrain
by ordering also return a trace of register accesses.
-/

/-- One comparator control/status register (COMPx_CSR), modelled field-wise.
The numeric fields hold the raw bit patterns that the driver writes (INPSEL is
2 bits wide, INMSEL 4 bits, HYST 2 bits, PWRMODE 2 bits).  The `rest` field
stands for every remaining bit of the register (BLANKSEL, BRGEN, SCALEN, LOCK
and the reserved bits), so that frame theorems cover them as well. -/
structure CSR where
  en : Bool
  winmode : Bool
  inpsel : Nat
  inmsel : Nat
  hyst : Nat
  polarity : Bool
  pwrmode : Nat
  winout : Bool
  value : Bool
  rest : Nat
  deriving DecidableEq, Repr

/-- The registers the driver accesses: the two comparator CSRs and the two
RCC registers used during bring-up. -/
inductive Reg where
  | comp1csr
  | comp2csr
  | apbenr2
  | apbrstr2
  deriving DecidableEq, Repr

/-- One register access, as recorded in an operation trace. -/
inductive Access where
  | modifyReg (r : Reg)
  | readReg (r : Reg)
  deriving DecidableEq, Repr

/-- True when the access touches a comparator register (either unit's CSR). -/
def Access.touchesComp : Access → Bool
  | .modifyReg .comp1csr => true
  | .modifyReg .comp2csr => true
  | .readReg .comp1csr => true
  | .readReg .comp2csr => true
  | _ => false

/-- The machine state visible to this driver: the two comparator unit CSRs
and the two RCC bits manipulated by `split`. -/
structure MachineState where
  comp1_csr : CSR
  comp2_csr : CSR
  syscfgen : Bool
  syscfgrst : Bool
  deriving DecidableEq, Repr

/-- Hysteresis level (enum `Hysteresis` in the source). -/
inductive Hysteresis where
  | None
  | Low
  | Medium
  | High
  deriving DecidableEq, Repr

/-- The discriminant values of the `Hysteresis` enum (`None = 0b00`,
`Low = 0b01`, `Medium = 0b10`, `High = 0b11`), written into HYST by
`config.hysteresis as u8`. -/
def Hysteresis.bits : Hysteresis → Nat
  | .None => 0b00
  | .Low => 0b01
  | .Medium => 0b10
  | .High => 0b11

/-- Power mode (enum `PowerMode` in the source). -/
inductive PowerMode where
  | HighSpeed
  | MediumSpeed
  deriving DecidableEq, Repr

/-- The discriminant values of the `PowerMode` enum (`HighSpeed = 0b00`,
`MediumSpeed = 0b01`), written into PWRMODE by `config.power_mode as u8`. -/
def PowerMode.bits : PowerMode → Nat
  | .HighSpeed => 0b00
  | .MediumSpeed => 0b01

/-- The comparator configuration value object (struct `Config`). -/
structure Config where
  power_mode : PowerMode
  hysteresis : Hysteresis
  inverted : Bool
  output_xor : Bool
  deriving DecidableEq, Repr

/-- The `Default` impl for `Config`: no hysteresis, non-inverted, high speed,
no XOR. -/
def Config.default : Config :=
  { hysteresis := Hysteresis.None
    inverted := false
    power_mode := PowerMode.HighSpeed
    output_xor := false }

/-- Builder method `Config::hysteresis` (renamed: in Lean the field accessor
already takes that name): replaces the hysteresis level. -/
def Config.withHysteresis (c : Config) (hysteresis : Hysteresis) : Config :=
  { c with hysteresis := hysteresis }

/-- Builder method `Config::output_inverted`: sets the inverted flag. -/
def Config.output_inverted (c : Config) : Config :=
  { c with inverted := true }

/-- Builder method `Config::output_polarity`: sets the inverted flag to the
given value. -/
def Config.output_polarity (c : Config) (inverted : Bool) : Config :=
  { c with inverted := inverted }

/-- Builder method `Config::power_mode` (renamed: in Lean the field accessor
already takes that name): replaces the power mode. -/
def Config.withPowerMode (c : Config) (power_mode : PowerMode) : Config :=
  { c with power_mode := power_mode }

/-- Builder method `Config::output_xor` (renamed: in Lean the field accessor
already takes that name): sets the XOR flag. -/
def Config.withOutputXor (c : Config) : Config :=
  { c with output_xor := true }

/-- Reference-voltage divisor taps (enum `RefintInput`). -/
inductive RefintInput where
  | VRefintM14
  | VRefintM12
  | VRefintM34
  | VRefint
  deriving DecidableEq, Repr, Fintype

/-- The discriminant values of `RefintInput` (`VRefintM14 = 0b0000`,
`VRefintM12 = 0b0001`, `VRefintM34 = 0b0010`, `VRefint = 0b0011`), written
into INMSEL by `*self as u8`. -/
def RefintInput.bits : RefintInput → Nat
  | .VRefintM14 => 0b0000
  | .VRefintM12 => 0b0001
  | .VRefintM34 => 0b0010
  | .VRefint => 0b0011

/-- The types implementing `PositiveInput<COMP1>`: the three analog pins
PC5, PB2, PA1, the `Open` marker, and the window-mode cross-link `Comp2InP`
(Comparator 2 positive pin used as positive input for Comparator 1). -/
inductive PositiveInput1 where
  | PC5
  | PB2
  | PA1
  | Open
  | Comp2InP
  deriving DecidableEq, Repr

/-- The types implementing `PositiveInput<COMP2>`: the three analog pins
PB4, PB6, PA3, the `Open` marker, and the window-mode cross-link `Comp1InP`. -/
inductive PositiveInput2 where
  | PB4
  | PB6
  | PA3
  | Open
  | Comp1InP
  deriving DecidableEq, Repr

/-- `PositiveInput<COMP1>::setup` by implementor.  The four non-cross-link
impls come from `positive_input_pin!` and each writes the listed bit pattern
into INPSEL; `Comp2InP` comes from `window_input_pin!` and sets WINMODE. -/
def PositiveInput1.setup : PositiveInput1 → CSR → CSR
  | .PC5, s => { s with inpsel := 0b00 }
  | .PB2, s => { s with inpsel := 0b01 }
  | .PA1, s => { s with inpsel := 0b10 }
  | .Open, s => { s with inpsel := 0b11 }
  | .Comp2InP, s => { s with winmode := true }

/-- `PositiveInput<COMP2>::setup` by implementor, analogous to unit 1. -/
def PositiveInput2.setup : PositiveInput2 → CSR → CSR
  | .PB4, s => { s with inpsel := 0b00 }
  | .PB6, s => { s with inpsel := 0b01 }
  | .PA3, s => { s with inpsel := 0b10 }
  | .Open, s => { s with inpsel := 0b11 }
  | .Comp1InP, s => { s with winmode := true }

/-- The types implementing `NegativeInput<COMP1>`: the three analog pins PB1,
PC4, PA0 (from `negative_input_pin!`), the four reference taps (from
`refint_input!`), and the two enabled DAC channels (from `dac_input!`, gated
on the stm32g071/stm32g081 features; only `dac::ChannelN<dac::Enabled>` is in
the catalog). -/
inductive NegativeInput1 where
  | PB1
  | PC4
  | PA0
  | Refint (r : RefintInput)
  | DacChannel1
  | DacChannel2
  deriving DecidableEq, Repr, Fintype

/-- The types implementing `NegativeInput<COMP2>`: the three analog pins PB3,
PB7, PA2, the four reference taps, and the two enabled DAC channels. -/
inductive NegativeInput2 where
  | PB3
  | PB7
  | PA2
  | Refint (r : RefintInput)
  | DacChannel1
  | DacChannel2
  deriving DecidableEq, Repr, Fintype

/-- The INMSEL bit pattern each `NegativeInput<COMP1>` impl writes:
`0b0110`, `0b0111`, `0b1000` for the pins, the enum discriminant for the
reference taps, `0b0100` and `0b0101` for the DAC channels. -/
def NegativeInput1.code : NegativeInput1 → Nat
  | .PB1 => 0b0110
  | .PC4 => 0b0111
  | .PA0 => 0b1000
  | .Refint r => r.bits
  | .DacChannel1 => 0b0100
  | .DacChannel2 => 0b0101

/-- The INMSEL bit pattern each `NegativeInput<COMP2>` impl writes. -/
def NegativeInput2.code : NegativeInput2 → Nat
  | .PB3 => 0b0110
  | .PB7 => 0b0111
  | .PA2 => 0b1000
  | .Refint r => r.bits
  | .DacChannel1 => 0b0100
  | .DacChannel2 => 0b0101

/-- `NegativeInput<COMP1>::setup`: every impl is a single modify writing its
bit pattern into INMSEL. -/
def NegativeInput1.setup (n : NegativeInput1) (s : CSR) : CSR :=
  { s with inmsel := n.code }

/-- `NegativeInput<COMP2>::setup`: every impl is a single modify writing its
bit pattern into INMSEL. -/
def NegativeInput2.setup (n : NegativeInput2) (s : CSR) : CSR :=
  { s with inmsel := n.code }

/-- The combined configuration write at the end of `ComparatorExt::init`: one
modify setting HYST, POLARITY, PWRMODE and WINOUT from the `Config`. -/
def applyConfig (cfg : Config) (s : CSR) : CSR :=
  { s with
    hyst := cfg.hysteresis.bits
    polarity := cfg.inverted
    pwrmode := cfg.power_mode.bits
    winout := cfg.output_xor }

/-- `ComparatorExt<COMP1>::init` for `Comparator<COMP1>`: positive setup,
then negative setup, then one combined config modify, each a read-modify-write
of COMP1_CSR.  It returns no value; the trace records the three accesses in
order. -/
def Comparator1.init (p : PositiveInput1) (n : NegativeInput1) (cfg : Config)
    (s : MachineState) : MachineState × List Access :=
  let s1 := { s with comp1_csr := p.setup s.comp1_csr }
  let s2 := { s1 with comp1_csr := n.setup s1.comp1_csr }
  let s3 := { s2 with comp1_csr := applyConfig cfg s2.comp1_csr }
  (s3, [Access.modifyReg Reg.comp1csr, Access.modifyReg Reg.comp1csr,
    Access.modifyReg Reg.comp1csr])

/-- `ComparatorExt<COMP2>::init` for `Comparator<COMP2>`. -/
def Comparator2.init (p : PositiveInput2) (n : NegativeInput2) (cfg : Config)
    (s : MachineState) : MachineState × List Access :=
  let s1 := { s with comp2_csr := p.setup s.comp2_csr }
  let s2 := { s1 with comp2_csr := n.setup s1.comp2_csr }
  let s3 := { s2 with comp2_csr := applyConfig cfg s2.comp2_csr }
  (s3, [Access.modifyReg Reg.comp2csr, Access.modifyReg Reg.comp2csr,
    Access.modifyReg Reg.comp2csr])

/-- `ComparatorExt<COMP1>::output`: reads the VALUE bit; the register is only
read, never written, so the state component is returned unchanged. -/
def Comparator1.output (s : MachineState) : Bool × MachineState :=
  (s.comp1_csr.value, s)

/-- `ComparatorExt<COMP2>::output`. -/
def Comparator2.output (s : MachineState) : Bool × MachineState :=
  (s.comp2_csr.value, s)

/-- `ComparatorExt<COMP1>::enable`: one modify setting the EN bit. -/
def Comparator1.enable (s : MachineState) : MachineState :=
  { s with comp1_csr := { s.comp1_csr with en := true } }

/-- `ComparatorExt<COMP1>::disable`: one modify clearing the EN bit. -/
def Comparator1.disable (s : MachineState) : MachineState :=
  { s with comp1_csr := { s.comp1_csr with en := false } }

/-- `ComparatorExt<COMP2>::enable`. -/
def Comparator2.enable (s : MachineState) : MachineState :=
  { s with comp2_csr := { s.comp2_csr with en := true } }

/-- `ComparatorExt<COMP2>::disable`. -/
def Comparator2.disable (s : MachineState) : MachineState :=
  { s with comp2_csr := { s.comp2_csr with en := false } }

/-- `WindowComparatorExt::init` for `WindowComparator<COMP1, COMP2>`
(upper = COMP1, lower = COMP2, cross-link = `Comp1InP`): initialize the upper
unit with the given input, the upper threshold, and the config with XOR forced
on, then initialize the lower unit with the cross-link, the lower threshold,
and the config with XOR forced off. -/
def WindowComparator12.init (input : PositiveInput1)
    (lower_threshold : NegativeInput2) (upper_threshold : NegativeInput1)
    (cfg : Config) (s : MachineState) : MachineState × List Access :=
  let configu := { cfg with output_xor := true }
  let r1 := Comparator1.init input upper_threshold configu s
  let configl := { cfg with output_xor := false }
  let r2 := Comparator2.init PositiveInput2.Comp1InP lower_threshold configl r1.1
  (r2.1, r1.2 ++ r2.2)

/-- `WindowComparatorExt::init` for `WindowComparator<COMP2, COMP1>`
(upper = COMP2, lower = COMP1, cross-link = `Comp2InP`). -/
def WindowComparator21.init (input : PositiveInput2)
    (lower_threshold : NegativeInput1) (upper_threshold : NegativeInput2)
    (cfg : Config) (s : MachineState) : MachineState × List Access :=
  let configu := { cfg with output_xor := true }
  let r1 := Comparator2.init input upper_threshold configu s
  let configl := { cfg with output_xor := false }
  let r2 := Comparator1.init PositiveInput1.Comp2InP lower_threshold configl r1.1
  (r2.1, r1.2 ++ r2.2)

/-- `WindowComparatorExt::output` for `WindowComparator<COMP1, COMP2>`:
the upper unit's raw output. -/
def WindowComparator12.output (s : MachineState) : Bool × MachineState :=
  Comparator1.output s

/-- `WindowComparatorExt::above_lower` for `WindowComparator<COMP1, COMP2>`:
the lower unit's raw output. -/
def WindowComparator12.above_lower (s : MachineState) : Bool × MachineState :=
  Comparator2.output s

/-- `WindowComparatorExt::output` for `WindowComparator<COMP2, COMP1>`. -/
def WindowComparator21.output (s : MachineState) : Bool × MachineState :=
  Comparator2.output s

/-- `WindowComparatorExt::above_lower` for `WindowComparator<COMP2, COMP1>`. -/
def WindowComparator21.above_lower (s : MachineState) : Bool × MachineState :=
  Comparator1.output s

/-- `WindowComparatorExt::enable`: enable both constituent units. -/
def WindowComparator12.enable (s : MachineState) : MachineState :=
  Comparator2.enable (Comparator1.enable s)

/-- `WindowComparatorExt::disable`: disable both constituent units. -/
def WindowComparator12.disable (s : MachineState) : MachineState :=
  Comparator2.disable (Comparator1.disable s)

/-- The handle values `split` returns: `Comparator<COMP1>` and
`Comparator<COMP2>` carry no runtime data (the register block is a phantom),
so each handle is just its unit identity. -/
inductive CompHandle where
  | comp1
  | comp2
  deriving DecidableEq, Repr

/-- First step of `split`: `rcc.rb.apbenr2.modify(|_, w| w.syscfgen().set_bit())`. -/
def enableCompClock (s : MachineState) : MachineState :=
  { s with syscfgen := true }

/-- Second step of `split`: `rcc.rb.apbrstr2.modify(|_, w| w.syscfgrst().set_bit())`. -/
def setCompReset (s : MachineState) : MachineState :=
  { s with syscfgrst := true }

/-- Third step of `split`: `rcc.rb.apbrstr2.modify(|_, w| w.syscfgrst().clear_bit())`. -/
def clearCompReset (s : MachineState) : MachineState :=
  { s with syscfgrst := false }

/-- `split(comp, rcc)`: enable the COMP clock, pulse the reset bit (set then
clear), and only then return the two unit handles.  The trace records the
three RCC accesses in order; no comparator register is accessed. -/
def split (s : MachineState) : (CompHandle × CompHandle) × MachineState × List Access :=
  let s1 := enableCompClock s
  let s2 := setCompReset s1
  let s3 := clearCompReset s2
  ((CompHandle.comp1, CompHandle.comp2), s3,
    [Access.modifyReg Reg.apbenr2, Access.modifyReg Reg.apbrstr2,
      Access.modifyReg Reg.apbrstr2])

/-- C1: every (Source, Unit, Direction) pair of the catalog writes exactly the
documented encoding into the correct field: the COMP1 positive inputs PC5,
PB2, PA1, Open write 0b00, 0b01, 0b10, 0b11 into INPSEL; the COMP2 positive
inputs PB4, PB6, PA3, Open write 0b00, 0b01, 0b10, 0b11; the unit-specific
negative pins write 0b0110, 0b0111, 0b1000, the reference taps 1/4, 1/2, 3/4,
full write 0b0000, 0b0001, 0b0010, 0b0011, and the two enabled DAC channels
write 0b0100 and 0b0101, all into INMSEL; and for each unit the negative
encodings are pairwise distinct (the code map is injective). -/
theorem input_encoding_table_exact :
    (∀ s : CSR, (PositiveInput1.setup .PC5 s).inpsel = 0b00)
    ∧ (∀ s : CSR, (PositiveInput1.setup .PB2 s).inpsel = 0b01)
    ∧ (∀ s : CSR, (PositiveInput1.setup .PA1 s).inpsel = 0b10)
    ∧ (∀ s : CSR, (PositiveInput1.setup .Open s).inpsel = 0b11)
    ∧ (∀ s : CSR, (PositiveInput2.setup .PB4 s).inpsel = 0b00)
    ∧ (∀ s : CSR, (PositiveInput2.setup .PB6 s).inpsel = 0b01)
    ∧ (∀ s : CSR, (PositiveInput2.setup .PA3 s).inpsel = 0b10)
    ∧ (∀ s : CSR, (PositiveInput2.setup .Open s).inpsel = 0b11)
    ∧ (∀ s : CSR, (NegativeInput1.setup .PB1 s).inmsel = 0b0110)
    ∧ (∀ s : CSR, (NegativeInput1.setup .PC4 s).inmsel = 0b0111)
    ∧ (∀ s : CSR, (NegativeInput1.setup .PA0 s).inmsel = 0b1000)
    ∧ (∀ s : CSR, (NegativeInput2.setup .PB3 s).inmsel = 0b0110)
    ∧ (∀ s : CSR, (NegativeInput2.setup .PB7 s).inmsel = 0b0111)
    ∧ (∀ s : CSR, (NegativeInput2.setup .PA2 s).inmsel = 0b1000)
    ∧ (∀ s : CSR, (NegativeInput1.setup (.Refint .VRefintM14) s).inmsel = 0b0000)
    ∧ (∀ s : CSR, (NegativeInput1.setup (.Refint .VRefintM12) s).inmsel = 0b0001)
    ∧ (∀ s : CSR, (NegativeInput1.setup (.Refint .VRefintM34) s).inmsel = 0b0010)
    ∧ (∀ s : CSR, (NegativeInput1.setup (.Refint .VRefint) s).inmsel = 0b0011)
    ∧ (∀ s : CSR, (NegativeInput2.setup (.Refint .VRefintM14) s).inmsel = 0b0000)
    ∧ (∀ s : CSR, (NegativeInput2.setup (.Refint .VRefintM12) s).inmsel = 0b0001)
    ∧ (∀ s : CSR, (NegativeInput2.setup (.Refint .VRefintM34) s).inmsel = 0b0010)
    ∧ (∀ s : CSR, (NegativeInput2.setup (.Refint .VRefint) s).inmsel = 0b0011)
    ∧ (∀ s : CSR, (NegativeInput1.setup .DacChannel1 s).inmsel = 0b0100)
    ∧ (∀ s : CSR, (NegativeInput1.setup .DacChannel2 s).inmsel = 0b0101)
    ∧ (∀ s : CSR, (NegativeInput2.setup .DacChannel1 s).inmsel = 0b0100)
    ∧ (∀ s : CSR, (NegativeInput2.setup .DacChannel2 s).inmsel = 0b0101)
    ∧ Function.Injective NegativeInput1.code
    ∧ Function.Injective NegativeInput2.code := by
  refine ⟨fun s => rfl, fun s => rfl, fun s => rfl, fun s => rfl,
    fun s => rfl, fun s => rfl, fun s => rfl, fun s => rfl,
    fun s => rfl, fun s => rfl, fun s => rfl, fun s => rfl,
    fun s => rfl, fun s => rfl, fun s => rfl, fun s => rfl,
    fun s => rfl, fun s => rfl, fun s => rfl, fun s => rfl,
    fun s => rfl, fun s => rfl, fun s => rfl, fun s => rfl,
    fun s => rfl, fun s => rfl, ?_, ?_⟩
  · decide
  · decide

/-- C2: for every caller-supplied `Config` (whatever its XOR flag is), window
comparator init equals: init the upper unit with the given input, the upper
threshold and the config with `output_xor` forced true, then init the lower
unit with the cross-link binding for its own unit, the lower threshold and
the config with `output_xor` forced false.  Consequently the upper CSR ends
with WINOUT set, the lower CSR with WINOUT clear and WINMODE set (cross-link),
both CSRs carry the caller's hysteresis, polarity and power mode unchanged,
and each unit's INMSEL carries its own threshold's encoding.  Both unit
orderings (upper = COMP1 and upper = COMP2) are covered. -/
theorem windowComparator_init_overrides_xor :
    (∀ (input : PositiveInput1) (lo : NegativeInput2) (hi : NegativeInput1)
        (cfg : Config) (s : MachineState),
      WindowComparator12.init input lo hi cfg s
          = (let r1 := Comparator1.init input hi { cfg with output_xor := true } s
             let r2 := Comparator2.init PositiveInput2.Comp1InP lo
               { cfg with output_xor := false } r1.1
             (r2.1, r1.2 ++ r2.2))
        ∧ (WindowComparator12.init input lo hi cfg s).1.comp1_csr.winout = true
        ∧ (WindowComparator12.init input lo hi cfg s).1.comp2_csr.winout = false
        ∧ (WindowComparator12.init input lo hi cfg s).1.comp2_csr.winmode = true
        ∧ (WindowComparator12.init input lo hi cfg s).1.comp1_csr.hyst
            = cfg.hysteresis.bits
        ∧ (WindowComparator12.init input lo hi cfg s).1.comp1_csr.polarity
            = cfg.inverted
        ∧ (WindowComparator12.init input lo hi cfg s).1.comp1_csr.pwrmode
            = cfg.power_mode.bits
        ∧ (WindowComparator12.init input lo hi cfg s).1.comp2_csr.hyst
            = cfg.hysteresis.bits
        ∧ (WindowComparator12.init input lo hi cfg s).1.comp2_csr.polarity
            = cfg.inverted
        ∧ (WindowComparator12.init input lo hi cfg s).1.comp2_csr.pwrmode
            = cfg.power_mode.bits
        ∧ (WindowComparator12.init input lo hi cfg s).1.comp1_csr.inmsel = hi.code
        ∧ (WindowComparator12.init input lo hi cfg s).1.comp2_csr.inmsel = lo.code)
    ∧ (∀ (input : PositiveInput2) (lo : NegativeInput1) (hi : NegativeInput2)
        (cfg : Config) (s : MachineState),
      WindowComparator21.init input lo hi cfg s
          = (let r1 := Comparator2.init input hi { cfg with output_xor := true } s
             let r2 := Comparator1.init PositiveInput1.Comp2InP lo
               { cfg with output_xor := false } r1.1
             (r2.1, r1.2 ++ r2.2))
        ∧ (WindowComparator21.init input lo hi cfg s).1.comp2_csr.winout = true
        ∧ (WindowComparator21.init input lo hi cfg s).1.comp1_csr.winout = false
        ∧ (WindowComparator21.init input lo hi cfg s).1.comp1_csr.winmode = true
        ∧ (WindowComparator21.init input lo hi cfg s).1.comp2_csr.hyst
            = cfg.hysteresis.bits
        ∧ (WindowComparator21.init input lo hi cfg s).1.comp2_csr.polarity
            = cfg.inverted
        ∧ (WindowComparator21.init input lo hi cfg s).1.comp2_csr.pwrmode
            = cfg.power_mode.bits
        ∧ (WindowComparator21.init input lo hi cfg s).1.comp1_csr.hyst
            = cfg.hysteresis.bits
        ∧ (WindowComparator21.init input lo hi cfg s).1.comp1_csr.polarity
            = cfg.inverted
        ∧ (WindowComparator21.init input lo hi cfg s).1.comp1_csr.pwrmode
            = cfg.power_mode.bits
        ∧ (WindowComparator21.init input lo hi cfg s).1.comp2_csr.inmsel = hi.code
        ∧ (WindowComparator21.init input lo hi cfg s).1.comp1_csr.inmsel = lo.code) :=
  ⟨fun _ _ _ _ _ => ⟨rfl, rfl, rfl, rfl, rfl, rfl, rfl, rfl, rfl, rfl, rfl, rfl⟩,
   fun _ _ _ _ _ => ⟨rfl, rfl, rfl, rfl, rfl, rfl, rfl, rfl, rfl, rfl, rfl, rfl⟩⟩

/-- C3: the window-mode cross-link positive input (`Comp2InP` on COMP1,
`Comp1InP` on COMP2) sets only WINMODE: the whole register equals the input
register with WINMODE set, and in particular INPSEL and every other field is
unchanged. -/
theorem crosslink_sets_only_winmode :
    ∀ s : CSR,
      PositiveInput1.setup .Comp2InP s = { s with winmode := true }
      ∧ (PositiveInput1.setup .Comp2InP s).winmode = true
      ∧ (PositiveInput1.setup .Comp2InP s).inpsel = s.inpsel
      ∧ (PositiveInput1.setup .Comp2InP s).inmsel = s.inmsel
      ∧ (PositiveInput1.setup .Comp2InP s).en = s.en
      ∧ (PositiveInput1.setup .Comp2InP s).hyst = s.hyst
      ∧ (PositiveInput1.setup .Comp2InP s).polarity = s.polarity
      ∧ (PositiveInput1.setup .Comp2InP s).pwrmode = s.pwrmode
      ∧ (PositiveInput1.setup .Comp2InP s).winout = s.winout
      ∧ (PositiveInput1.setup .Comp2InP s).value = s.value
      ∧ (PositiveInput1.setup .Comp2InP s).rest = s.rest
      ∧ PositiveInput2.setup .Comp1InP s = { s with winmode := true }
      ∧ (PositiveInput2.setup .Comp1InP s).winmode = true
      ∧ (PositiveInput2.setup .Comp1InP s).inpsel = s.inpsel
      ∧ (PositiveInput2.setup .Comp1InP s).inmsel = s.inmsel
      ∧ (PositiveInput2.setup .Comp1InP s).en = s.en
      ∧ (PositiveInput2.setup .Comp1InP s).hyst = s.hyst
      ∧ (PositiveInput2.setup .Comp1InP s).polarity = s.polarity
      ∧ (PositiveInput2.setup .Comp1InP s).pwrmode = s.pwrmode
      ∧ (PositiveInput2.setup .Comp1InP s).winout = s.winout
      ∧ (PositiveInput2.setup .Comp1InP s).value = s.value
      ∧ (PositiveInput2.setup .Comp1InP s).rest = s.rest :=
  fun _ => ⟨rfl, rfl, rfl, rfl, rfl, rfl, rfl, rfl, rfl, rfl, rfl,
    rfl, rfl, rfl, rfl, rfl, rfl, rfl, rfl, rfl, rfl, rfl⟩

/-- C4: for every unit, sources, config and starting state, `init` applies
the positive binding first, then the negative binding, then writes the
hysteresis, polarity, power-mode and XOR fields from the config in one
combined modify: the resulting CSR is exactly
`applyConfig cfg (negative.setup (positive.setup old))`, the trace is exactly
three read-modify-writes of that unit's CSR (the third being the single
combined config update), the other unit's CSR and the RCC bits are untouched,
and the operation returns no value (its only outputs are the state and the
trace). -/
theorem init_sequencing_and_combined_update :
    (∀ (p : PositiveInput1) (n : NegativeInput1) (cfg : Config) (s : MachineState),
      (Comparator1.init p n cfg s).1.comp1_csr
          = applyConfig cfg (n.setup (p.setup s.comp1_csr))
        ∧ (Comparator1.init p n cfg s).1.comp2_csr = s.comp2_csr
        ∧ (Comparator1.init p n cfg s).1.syscfgen = s.syscfgen
        ∧ (Comparator1.init p n cfg s).1.syscfgrst = s.syscfgrst
        ∧ (Comparator1.init p n cfg s).2
          = [Access.modifyReg Reg.comp1csr, Access.modifyReg Reg.comp1csr,
              Access.modifyReg Reg.comp1csr])
    ∧ (∀ (p : PositiveInput2) (n : NegativeInput2) (cfg : Config) (s : MachineState),
      (Comparator2.init p n cfg s).1.comp2_csr
          = applyConfig cfg (n.setup (p.setup s.comp2_csr))
        ∧ (Comparator2.init p n cfg s).1.comp1_csr = s.comp1_csr
        ∧ (Comparator2.init p n cfg s).1.syscfgen = s.syscfgen
        ∧ (Comparator2.init p n cfg s).1.syscfgrst = s.syscfgrst
        ∧ (Comparator2.init p n cfg s).2
          = [Access.modifyReg Reg.comp2csr, Access.modifyReg Reg.comp2csr,
              Access.modifyReg Reg.comp2csr])
    ∧ (∀ (cfg : Config) (c : CSR),
      (applyConfig cfg c).hyst = cfg.hysteresis.bits
        ∧ (applyConfig cfg c).polarity = cfg.inverted
        ∧ (applyConfig cfg c).pwrmode = cfg.power_mode.bits
        ∧ (applyConfig cfg c).winout = cfg.output_xor) :=
  ⟨fun _ _ _ _ => ⟨rfl, rfl, rfl, rfl, rfl⟩,
   fun _ _ _ _ => ⟨rfl, rfl, rfl, rfl, rfl⟩,
   fun _ _ => ⟨rfl, rfl, rfl, rfl⟩⟩

/-- C5: for either unit and every starting state, `enable` sets the EN bit
and `disable` clears it; `enable` then `disable` leaves EN clear and
`disable` then `enable` leaves it set; and both are idempotent under
repetition (repeating the call leaves the whole machine state identical, and
neither call can fail by construction). -/
theorem enable_disable_algebra :
    ∀ s : MachineState,
      (Comparator1.enable s).comp1_csr.en = true
      ∧ (Comparator1.disable s).comp1_csr.en = false
      ∧ (Comparator1.disable (Comparator1.enable s)).comp1_csr.en = false
      ∧ (Comparator1.enable (Comparator1.disable s)).comp1_csr.en = true
      ∧ Comparator1.enable (Comparator1.enable s) = Comparator1.enable s
      ∧ Comparator1.disable (Comparator1.disable s) = Comparator1.disable s
      ∧ (Comparator2.enable s).comp2_csr.en = true
      ∧ (Comparator2.disable s).comp2_csr.en = false
      ∧ (Comparator2.disable (Comparator2.enable s)).comp2_csr.en = false
      ∧ (Comparator2.enable (Comparator2.disable s)).comp2_csr.en = true
      ∧ Comparator2.enable (Comparator2.enable s) = Comparator2.enable s
      ∧ Comparator2.disable (Comparator2.disable s) = Comparator2.disable s :=
  fun _ => ⟨rfl, rfl, rfl, rfl, rfl, rfl, rfl, rfl, rfl, rfl, rfl, rfl⟩

/-- C6: for every register state and both unit orderings, the window
comparator's `output` returns exactly the upper unit's raw VALUE bit and
`above_lower` returns exactly the lower unit's raw VALUE bit, and neither
call modifies any register (the returned state is the input state). -/
theorem window_output_and_above_lower_read_only :
    ∀ s : MachineState,
      (WindowComparator12.output s).1 = s.comp1_csr.value
      ∧ (WindowComparator12.output s).2 = s
      ∧ (WindowComparator12.above_lower s).1 = s.comp2_csr.value
      ∧ (WindowComparator12.above_lower s).2 = s
      ∧ (WindowComparator21.output s).1 = s.comp2_csr.value
      ∧ (WindowComparator21.output s).2 = s
      ∧ (WindowComparator21.above_lower s).1 = s.comp1_csr.value
      ∧ (WindowComparator21.above_lower s).2 = s :=
  fun _ => ⟨rfl, rfl, rfl, rfl, rfl, rfl, rfl, rfl⟩

/-- C7: `split` first sets the clock-enable bit (SYSCFGEN), then sets the
reset bit (SYSCFGRST), then clears it — a set-then-clear pulse witnessed by
the intermediate states — and only then returns the two unit handles; after
`split` the clock-enable bit is set and the reset bit clear, the trace is
exactly the three RCC modifies in that order, and no access in the trace
touches a comparator register (both comparator CSRs are unchanged). -/
theorem split_bringup_sequencing :
    ∀ s : MachineState,
      (split s).2.1 = clearCompReset (setCompReset (enableCompClock s))
      ∧ (enableCompClock s).syscfgen = true
      ∧ (setCompReset (enableCompClock s)).syscfgrst = true
      ∧ (clearCompReset (setCompReset (enableCompClock s))).syscfgrst = false
      ∧ (split s).2.1.syscfgen = true
      ∧ (split s).2.1.syscfgrst = false
      ∧ (split s).2.1.comp1_csr = s.comp1_csr
      ∧ (split s).2.1.comp2_csr = s.comp2_csr
      ∧ (split s).1 = (CompHandle.comp1, CompHandle.comp2)
      ∧ (split s).2.2
        = [Access.modifyReg Reg.apbenr2, Access.modifyReg Reg.apbrstr2,
            Access.modifyReg Reg.apbrstr2]
      ∧ (split s).2.2.all (fun a => ! a.touchesComp) = true :=
  fun _ => ⟨rfl, rfl, rfl, rfl, rfl, rfl, rfl, rfl, rfl, rfl, rfl⟩

/-- C9: the default config has no hysteresis, high-speed power mode, output
not inverted and XOR off; and every fluent builder method changes exactly the
one field it names (the flag setters force true, the parameterised ones store
the supplied value) and leaves the other three fields of its receiver
unchanged.  `withHysteresis`, `withPowerMode` and `withOutputXor` model the
source methods `hysteresis`, `power_mode` and `output_xor`. -/
theorem config_default_and_builders :
    Config.default.hysteresis = Hysteresis.None
    ∧ Config.default.power_mode = PowerMode.HighSpeed
    ∧ Config.default.inverted = false
    ∧ Config.default.output_xor = false
    ∧ (∀ (c : Config) (h : Hysteresis),
        (c.withHysteresis h).hysteresis = h
        ∧ (c.withHysteresis h).power_mode = c.power_mode
        ∧ (c.withHysteresis h).inverted = c.inverted
        ∧ (c.withHysteresis h).output_xor = c.output_xor)
    ∧ (∀ c : Config,
        c.output_inverted.inverted = true
        ∧ c.output_inverted.hysteresis = c.hysteresis
        ∧ c.output_inverted.power_mode = c.power_mode
        ∧ c.output_inverted.output_xor = c.output_xor)
    ∧ (∀ (c : Config) (b : Bool),
        (c.output_polarity b).inverted = b
        ∧ (c.output_polarity b).hysteresis = c.hysteresis
        ∧ (c.output_polarity b).power_mode = c.power_mode
        ∧ (c.output_polarity b).output_xor = c.output_xor)
    ∧ (∀ (c : Config) (m : PowerMode),
        (c.withPowerMode m).power_mode = m
        ∧ (c.withPowerMode m).hysteresis = c.hysteresis
        ∧ (c.withPowerMode m).inverted = c.inverted
        ∧ (c.withPowerMode m).output_xor = c.output_xor)
    ∧ (∀ c : Config,
        c.withOutputXor.output_xor = true
        ∧ c.withOutputXor.hysteresis = c.hysteresis
        ∧ c.withOutputXor.power_mode = c.power_mode
        ∧ c.withOutputXor.inverted = c.inverted) :=
  ⟨rfl, rfl, rfl, rfl,
   fun _ _ => ⟨rfl, rfl, rfl, rfl⟩,
   fun _ => ⟨rfl, rfl, rfl, rfl⟩,
   fun _ _ => ⟨rfl, rfl, rfl, rfl⟩,
   fun _ _ => ⟨rfl, rfl, rfl, rfl⟩,
   fun _ => ⟨rfl, rfl, rfl, rfl⟩⟩

/-- C10: for either unit, every pair of valid sources and every config,
`init` never changes any EN bit: the initialized unit keeps its previous
enable state (and so does the other unit), because every positive binding
writes only INPSEL or WINMODE, every negative binding writes only INMSEL,
and the combined config update writes only HYST, POLARITY, PWRMODE and
WINOUT. -/
theorem init_preserves_enable_bit :
    (∀ (p : PositiveInput1) (n : NegativeInput1) (cfg : Config) (s : MachineState),
      (Comparator1.init p n cfg s).1.comp1_csr.en = s.comp1_csr.en
      ∧ (Comparator1.init p n cfg s).1.comp2_csr.en = s.comp2_csr.en)
    ∧ (∀ (p : PositiveInput2) (n : NegativeInput2) (cfg : Config) (s : MachineState),
      (Comparator2.init p n cfg s).1.comp2_csr.en = s.comp2_csr.en
      ∧ (Comparator2.init p n cfg s).1.comp1_csr.en = s.comp1_csr.en)
    ∧ (∀ (p : PositiveInput1) (c : CSR), (p.setup c).en = c.en)
    ∧ (∀ (p : PositiveInput2) (c : CSR), (p.setup c).en = c.en)
    ∧ (∀ (n : NegativeInput1) (c : CSR), (n.setup c).en = c.en)
    ∧ (∀ (n : NegativeInput2) (c : CSR), (n.setup c).en = c.en)
    ∧ (∀ (cfg : Config) (c : CSR), (applyConfig cfg c).en = c.en) := by
  refine ⟨fun p n cfg s => ?_, fun p n cfg s => ?_,
    fun p c => ?_, fun p c => ?_,
    fun n c => rfl, fun n c => rfl, fun cfg c => rfl⟩
  · cases p <;> exact ⟨rfl, rfl⟩
  · cases p <;> exact ⟨rfl, rfl⟩
  · cases p <;> rfl
  · cases p <;> rfl
